import Mathlib

/-!
Shallow embedding of `src/render-health-wrapper.ts` (the HTTP/WebSocket
reverse proxy wrapper with a `/health` readiness probe), together with
theorems settling the spec claims about it.

The wrapper keeps a single mutable boolean `gatewayReady`, flips it to
`true` when a stdout chunk of the supervised gateway process contains one
of the markers "listening" / "started" / "bound", answers `/health`
locally from that flag, proxies all other plain HTTP requests to the
gateway, and hand-splices WebSocket upgrade requests after rebuilding the
upgrade request bytes with forwarding headers.
-/

namespace RenderHealthWrapper

/-- A Node.js header value: `req.headers[k]` is a string or an array of
strings. -/
inductive HeaderValue where
  | str (s : String)
  | list (l : List String)
  deriving DecidableEq, Repr

/-- Header map as Node delivers it: an association list whose keys are the
(lower-cased by Node) header names. -/
abbrev Headers := List (String × HeaderValue)

/-- An inbound request as seen by the wrapper: `req.method`, `req.url`,
`req.httpVersion`, `req.headers`, whether Node dispatched it to the
`upgrade` listener, and `req.socket.remoteAddress` (`none` = undefined). -/
structure InboundRequest where
  method : String
  url : String
  httpVersion : String
  headers : Headers
  isUpgrade : Bool
  remoteAddress : Option String
  deriving DecidableEq, Repr

/-- `req.headers[k]` — first binding of key `k`. -/
def lookupHeader (hs : Headers) (k : String) : Option HeaderValue :=
  (hs.find? (fun kv => kv.1 == k)).map (fun kv => kv.2)

/-- Key `k` is bound in the header map (regardless of its value). -/
def headerPresent (hs : Headers) (k : String) : Bool :=
  (lookupHeader hs k).isSome

/-- JavaScript truthiness of `req.headers[k]`: absent and the empty string
are falsy; any array (even empty) is truthy. Mirrors checks of the form
`if (!req.headers["x-forwarded-for"])`. -/
def headerTruthy (hs : Headers) (k : String) : Bool :=
  match lookupHeader hs k with
  | none => false
  | some (HeaderValue.str s) => !(s == "")
  | some (HeaderValue.list _) => true

/-- `JavaScript Array.prototype.join`: items interleaved with `sep`. -/
def joinWithSep (sep : String) : List String → String
  | [] => ""
  | [a] => a
  | a :: b :: rest => a ++ sep ++ joinWithSep sep (b :: rest)

/-- JavaScript `value.toString()`: an array joins its items with ",". -/
def hvToStringJS : HeaderValue → String
  | HeaderValue.str s => s
  | HeaderValue.list l => joinWithSep "," l

/-- Serialization of one header value in the upgrade-request loop:
`Array.isArray(value) ? value.join(", ") : value`. -/
def hvJoinHeader : HeaderValue → String
  | HeaderValue.str s => s
  | HeaderValue.list l => joinWithSep ", " l

/-- JavaScript `a || b` on strings ("" is falsy). -/
def jsOr (a b : String) : String :=
  if a = "" then b else a

/-- JavaScript `String.prototype.trim`: strip whitespace at both ends. -/
def trimJS (s : String) : String :=
  String.mk (((s.data.dropWhile Char.isWhitespace).reverse.dropWhile
    Char.isWhitespace).reverse)

/-- JavaScript `s.split(",")[0]`: the characters before the first comma
(the whole string when there is none). -/
def firstCommaPart (s : String) : String :=
  String.mk (s.data.takeWhile (fun c => !(c == ',')))

/-- `req.headers["x-forwarded-for"]?.toString().split(",")[0].trim() ||
req.socket.remoteAddress || "unknown"` (lines 220-221). -/
def clientIpOf (req : InboundRequest) : String :=
  let fromHeader : String :=
    match lookupHeader req.headers "x-forwarded-for" with
    | some v => trimJS (firstCommaPart (hvToStringJS v))
    | none => ""
  jsOr fromHeader (jsOr (req.remoteAddress.getD "") "unknown")

/-- `req.headers.host || "unknown"` (line 239). -/
def hostOrUnknown (hs : Headers) : String :=
  match lookupHeader hs "host" with
  | some (HeaderValue.str s) => jsOr s "unknown"
  | some (HeaderValue.list l) => hvToStringJS (HeaderValue.list l)
  | none => "unknown"

/-- `pat` is a prefix of `s` (on character lists). -/
def charsHavePrefix : List Char → List Char → Bool
  | [], _ => true
  | _ :: _, [] => false
  | a :: ps, b :: ss => a == b && charsHavePrefix ps ss

/-- `pat` occurs as a contiguous sublist of `s`. -/
def charsContain (pat : List Char) : List Char → Bool
  | [] => charsHavePrefix pat []
  | b :: ss => charsHavePrefix pat (b :: ss) || charsContain pat ss

/-- Boolean substring test on strings (JavaScript `includes`). -/
def strContains (s pat : String) : Bool :=
  charsContain pat.data s.data

/-- JavaScript `String.prototype.toLowerCase` (ASCII case folding). -/
def lowerJS (s : String) : String :=
  String.mk (s.data.map Char.toLower)

/-- `req.headers["connection"]?.toString().toLowerCase().includes("upgrade")`
(line 246); absent header is undefined, hence false. -/
def connectionHasUpgrade (hs : Headers) : Bool :=
  match lookupHeader hs "connection" with
  | none => false
  | some v => strContains (lowerJS (hvToStringJS v)) "upgrade"

/-- The reconstructed request line `${req.method} ${req.url}
HTTP/${req.httpVersion}\r\n` (line 224). -/
def requestLineOf (req : InboundRequest) : String :=
  req.method ++ " " ++ req.url ++ " HTTP/" ++ req.httpVersion ++ "\r\n"

/-- One serialized header line of the forwarding loop (lines 227-229). -/
def headerLineOf (kv : String × HeaderValue) : String :=
  kv.1 ++ ": " ++ hvJoinHeader kv.2 ++ "\r\n"

/-- The scheme value appended for `X-Forwarded-Proto` (line 236):
`req.url?.startsWith("wss://") ? "wss" : "ws"`. -/
def forwardedProtoOf (req : InboundRequest) : String :=
  if charsHavePrefix "wss://".data req.url.data then "wss" else "ws"

/-- Full reconstruction of the WebSocket upgrade request written to the
gateway socket, mirroring lines 220-253 statement by statement: request
line, loop over `Object.entries(req.headers)`, the four
`if (!req.headers[...])` proxy-header appends, the two critical
WebSocket-header appends, and the final blank line. -/
def buildUpgradeRequest (req : InboundRequest) : String :=
  let clientIp := clientIpOf req
  let u0 := requestLineOf req
  let u1 := req.headers.foldl (fun acc kv => acc ++ headerLineOf kv) u0
  let u2 := if !(headerTruthy req.headers "x-forwarded-for") then
      u1 ++ "X-Forwarded-For: " ++ clientIp ++ "\r\n" else u1
  let u3 := if !(headerTruthy req.headers "x-forwarded-proto") then
      u2 ++ "X-Forwarded-Proto: " ++ forwardedProtoOf req ++ "\r\n" else u2
  let u4 := if !(headerTruthy req.headers "x-forwarded-host") then
      u3 ++ "X-Forwarded-Host: " ++ hostOrUnknown req.headers ++ "\r\n" else u3
  let u5 := if !(headerTruthy req.headers "x-real-ip") then
      u4 ++ "X-Real-IP: " ++ clientIp ++ "\r\n" else u4
  let u6 := if !(connectionHasUpgrade req.headers) then
      u5 ++ "Connection: Upgrade\r\n" else u5
  let u7 := if !(headerTruthy req.headers "upgrade") then
      u6 ++ "Upgrade: websocket\r\n" else u6
  u7 ++ "\r\n"

/-- The forwarding (proxy) header name/value pairs the upgrade handler
appends, as a list, one entry per `if (!req.headers[...])` branch of
lines 232-243, in source order. -/
def addedProxyHeaders (req : InboundRequest) : List (String × String) :=
  (if !(headerTruthy req.headers "x-forwarded-for") then
      [("X-Forwarded-For", clientIpOf req)] else [])
  ++ (if !(headerTruthy req.headers "x-forwarded-proto") then
      [("X-Forwarded-Proto", forwardedProtoOf req)] else [])
  ++ (if !(headerTruthy req.headers "x-forwarded-host") then
      [("X-Forwarded-Host", hostOrUnknown req.headers)] else [])
  ++ (if !(headerTruthy req.headers "x-real-ip") then
      [("X-Real-IP", clientIpOf req)] else [])

/-- One observable step of the upgrade handler, in the order the handler
performs them: a write or destroy on the inbound socket, the
`net.createConnection` attempt, a write on the gateway socket (header
block as a string, the head buffer as raw bytes), or the start of the
bidirectional `pipe` splicing. -/
inductive UpAct where
  | inWrite (s : String)
  | inDestroy
  | connectAttempt
  | gwWrite (s : String)
  | gwWriteBytes (b : List Nat)
  | splice
  deriving DecidableEq, Repr

/-- The `upgrade` listener (lines 206-273) as an action trace.
`ready` is the `gatewayReady` flag at entry, `head` the bytes Node already
consumed from the inbound socket, and `connectOk` whether the
`net.createConnection` to the gateway succeeds (on failure its `error`
handler runs instead of the connect callback). -/
def handleUpgrade (ready : Bool) (req : InboundRequest) (head : List Nat)
    (connectOk : Bool) : List UpAct :=
  if !ready then
    [UpAct.inWrite "HTTP/1.1 503 Service Unavailable\r\n\r\n", UpAct.inDestroy]
  else if !connectOk then
    [UpAct.connectAttempt,
     UpAct.inWrite "HTTP/1.1 502 Bad Gateway\r\n\r\n", UpAct.inDestroy]
  else
    [UpAct.connectAttempt, UpAct.gwWrite (buildUpgradeRequest req)]
      ++ (if head.length > 0 then [UpAct.gwWriteBytes head] else [])
      ++ [UpAct.splice]

/-- The request the unary proxy directs at the gateway: `http.request`
options `{ hostname, port, path: req.url, method: req.method, headers:
req.headers }` plus the piped inbound body (lines 182-189, 202). -/
structure BackendRequest where
  method : String
  path : String
  headers : Headers
  body : String
  deriving DecidableEq, Repr

/-- A gateway response as the proxy consumes it: `proxyRes.statusCode`
(possibly undefined), `proxyRes.headers`, and the piped body. -/
structure BackendResponse where
  statusCode : Option Nat
  headers : Headers
  body : String
  deriving DecidableEq, Repr

/-- What the original caller receives: status, headers and body written on
`res`. -/
structure CallerResponse where
  status : Nat
  headers : Headers
  body : String
  deriving DecidableEq, Repr

/-- The outcome of the request listener for one inbound request: the
caller-visible response, the request directed at the gateway (`none` when
the gateway is never contacted), and how many gateway connections were
attempted. -/
structure HttpOutcome where
  response : CallerResponse
  sent : Option BackendRequest
  attempts : Nat
  deriving DecidableEq, Repr

/-- `JSON.stringify({ status: s, timestamp: now })` for the health
responses (lines 173, 176). -/
def healthBody (s now : String) : String :=
  "\x7b\"status\":\"" ++ s ++ "\",\"timestamp\":\"" ++ now ++ "\"\x7d"

/-- The `http.createServer` request listener (lines 168-203). `ready` is
the `gatewayReady` flag, `now` the ISO-8601 string of
`new Date().toISOString()`, `body` the inbound request body, and
`backend` the gateway: `none` models a connection that fails before any
response (the `proxyReq` error handler runs), `some f` a reachable
gateway computing a response. -/
def handleHttp (ready : Bool) (now : String) (req : InboundRequest)
    (body : String) (backend : Option (BackendRequest → BackendResponse)) :
    HttpOutcome :=
  if req.url = "/health" then
    if ready then
      { response := { status := 200,
                      headers := [("Content-Type", HeaderValue.str "application/json")],
                      body := healthBody "ok" now },
        sent := none, attempts := 0 }
    else
      { response := { status := 503,
                      headers := [("Content-Type", HeaderValue.str "application/json")],
                      body := healthBody "starting" now },
        sent := none, attempts := 0 }
  else
    let breq : BackendRequest :=
      { method := req.method, path := req.url, headers := req.headers, body := body }
    match backend with
    | none =>
        { response := { status := 502,
                        headers := [("Content-Type", HeaderValue.str "text/plain")],
                        body := "Bad Gateway - Gateway unavailable" },
          sent := some breq, attempts := 1 }
    | some f =>
        let bres := f breq
        { response := { status := bres.statusCode.getD 500,
                        headers := bres.headers, body := bres.body },
          sent := some breq, attempts := 1 }

/-- A gateway that echoes the request back: status 200, same headers, same
body. Used to state the round-trip property. -/
def echoBackend : BackendRequest → BackendResponse :=
  fun r => { statusCode := some 200, headers := r.headers, body := r.body }

/-- `output.includes("listening") || output.includes("started") ||
output.includes("bound")` on one stdout chunk (line 296). -/
def hasReadyMarker (s : String) : Bool :=
  strContains s "listening" || strContains s "started" || strContains s "bound"

/-- The stdout data handler's effect on `gatewayReady` (lines 291-300):
the flag is set to `true` on a marker chunk and left alone otherwise. -/
def observeChunk (ready : Bool) (chunk : String) : Bool :=
  if hasReadyMarker chunk then true else ready

/-- `gatewayReady` after a sequence of stdout chunks, starting from
`ready`. -/
def readyAfter (ready : Bool) (chunks : List String) : Bool :=
  chunks.foldl observeChunk ready

/-- An interleaved event of the wrapper's single-threaded reactor: either
a gateway stdout chunk arrives, or a probe request to `/health` arrives. -/
inductive Event where
  | chunk (s : String)
  | probe
  deriving DecidableEq, Repr

/-- The event carries a readiness marker (only chunks can). -/
def isMarkerEvent : Event → Bool
  | Event.chunk s => hasReadyMarker s
  | Event.probe => false

/-- The event is a probe request. -/
def isProbeEvent : Event → Bool
  | Event.chunk _ => false
  | Event.probe => true

/-- A plain GET probe request to the health path. -/
def probeReq : InboundRequest :=
  { method := "GET", url := "/health", httpVersion := "1.1",
    headers := [], isUpgrade := false, remoteAddress := none }

/-- Run the wrapper over an event sequence starting from readiness flag
`r`, collecting the status code the request listener returns for each
probe. Chunks update `gatewayReady` via the stdout handler; probes are
answered by `handleHttp` from the current flag. -/
def runProbes : Bool → List Event → List Nat
  | _, [] => []
  | r, Event.chunk s :: es => runProbes (observeChunk r s) es
  | r, Event.probe :: es =>
      (handleHttp r "t" probeReq "" none).response.status :: runProbes r es

/-- How the request is routed by Node's event dispatch together with the
wrapper's `/health` check: a request with upgrade intent is delivered to
the `upgrade` listener (lines 206-273) and never reaches the request
listener; otherwise the request listener serves `/health` locally
(line 170) or proxies (lines 182-203). -/
inductive Route where
  | health
  | unary
  | tunnel
  deriving DecidableEq, Repr

/-- The dispatcher. -/
def dispatch (req : InboundRequest) : Route :=
  if req.isUpgrade then Route.tunnel
  else if req.url = "/health" then Route.health
  else Route.unary

/-- The gateway section of the settings file (`config.gateway`). -/
structure GatewayCfg where
  trustedProxies : Option (List String)
  deriving DecidableEq, Repr

/-- The parsed settings file `openclaw.json`; only the part the bootstrap
touches is modelled. -/
structure Config where
  gateway : Option GatewayCfg
  deriving DecidableEq, Repr

/-- Reading plus `JSON.parse` of the existing settings file:
either a parsed config, a thrown read error (`fs.readFileSync`), or a
thrown parse error (`JSON.parse`). -/
inductive ReadOutcome where
  | ok (c : Config)
  | readError
  | parseError
  deriving DecidableEq, Repr

/-- The filesystem as the bootstrap can observe it: whether the config
directory exists, whether `mkdirSync` would succeed, whether the settings
file exists, what reading it yields, and whether `writeFileSync` would
succeed. -/
structure BootstrapEnv where
  dirExists : Bool
  mkdirOk : Bool
  fileExists : Bool
  readResult : ReadOutcome
  writeOk : Bool
  deriving DecidableEq, Repr

/-- Result of the bootstrap block: either `process.exit(1)` from the outer
catch, or normal completion with the config that was written to disk. -/
inductive BootstrapResult where
  | fatalExit
  | ok (written : Config)
  deriving DecidableEq, Repr

/-- Lines 154-157: `if (!config.gateway) config.gateway = {};
config.gateway.trustedProxies = ["127.0.0.1", "::1"]`. -/
def setTrustedProxies (c : Config) : Config :=
  let g := c.gateway.getD { trustedProxies := none }
  { c with gateway := some { g with trustedProxies := some ["127.0.0.1", "::1"] } }

/-- The config written when the existing file is absent, unreadable or
unparseable: the trusted-proxies setting applied to the empty object. -/
def freshConfig : Config :=
  setTrustedProxies { gateway := none }

/-- The config bootstrap try/catch (lines 131-165). The outer `try` covers
`mkdirSync` and `writeFileSync`; `readFileSync`/`JSON.parse` sit in an
inner `try` whose `catch` only logs a warning and leaves `config = {}`,
after which the file is written regardless. -/
def bootstrap (env : BootstrapEnv) : BootstrapResult :=
  if !env.dirExists && !env.mkdirOk then BootstrapResult.fatalExit
  else
    let config : Config :=
      if env.fileExists then
        match env.readResult with
        | ReadOutcome.ok c => c
        | ReadOutcome.readError => { gateway := none }
        | ReadOutcome.parseError => { gateway := none }
      else { gateway := none }
    let config := setTrustedProxies config
    if env.writeOk then BootstrapResult.ok config else BootstrapResult.fatalExit

/-- Concatenation of a list of strings. -/
def concatStrings : List String → String
  | [] => ""
  | a :: rest => a ++ concatStrings rest

/-- The four forwarding headers the upgrade handler may append: the
Node-side (lower-case) key it checks, the header name it writes, and the
value it computes. -/
def computedForwarding (req : InboundRequest) : List (String × String × String) :=
  [("x-forwarded-for", "X-Forwarded-For", clientIpOf req),
   ("x-forwarded-proto", "X-Forwarded-Proto", forwardedProtoOf req),
   ("x-forwarded-host", "X-Forwarded-Host", hostOrUnknown req.headers),
   ("x-real-ip", "X-Real-IP", clientIpOf req)]

/-- The Node-side keys of the four forwarding headers. -/
def forwardingKeys : List String :=
  ["x-forwarded-for", "x-forwarded-proto", "x-forwarded-host", "x-real-ip"]

/-- Modelled from the claim text of C5: the reconstructed tunnel bytes as
that claim enumerates them — request line, every inbound header in order,
the two handshake indicators when missing, terminating blank line — with
no forwarding headers in between. To be compared with
`buildUpgradeRequest`, which is the code. -/
def claimedTunnelBytes (req : InboundRequest) : String :=
  requestLineOf req
  ++ concatStrings (req.headers.map headerLineOf)
  ++ (if connectionHasUpgrade req.headers then "" else "Connection: Upgrade\r\n")
  ++ (if headerTruthy req.headers "upgrade" then "" else "Upgrade: websocket\r\n")
  ++ "\r\n"

/-- A WebSocket upgrade request that carries no forwarding headers. -/
def plainUpgradeReq : InboundRequest :=
  { method := "GET", url := "/ws", httpVersion := "1.1",
    headers := [("host", HeaderValue.str "example.com"),
                ("connection", HeaderValue.str "Upgrade"),
                ("upgrade", HeaderValue.str "websocket")],
    isUpgrade := true, remoteAddress := some "203.0.113.5" }

/-- An upgrade request whose client set `X-Forwarded-For` with an empty
value. -/
def emptyXffReq : InboundRequest :=
  { method := "GET", url := "/ws", httpVersion := "1.1",
    headers := [("x-forwarded-for", HeaderValue.str ""),
                ("host", HeaderValue.str "example.com")],
    isUpgrade := true, remoteAddress := some "203.0.113.5" }

theorem foldl_append_concat (f : α → String) :
    ∀ (l : List α) (s : String),
      l.foldl (fun acc x => acc ++ f x) s = s ++ concatStrings (l.map f)
  | [], s => (String.append_empty s).symm
  | a :: rest, s => by
      simp only [List.foldl_cons, List.map_cons, concatStrings]
      rw [foldl_append_concat f rest (s ++ f a), String.append_assoc]

theorem observeChunk_true (s : String) : observeChunk true s = true := by
  unfold observeChunk
  cases hasReadyMarker s <;> rfl

theorem runProbes_true : ∀ es : List Event,
    runProbes true es = List.replicate (es.countP isProbeEvent) 200
  | [] => rfl
  | Event.chunk s :: es => by
      simp only [runProbes, observeChunk_true, runProbes_true es,
        List.countP_cons, isProbeEvent, cond_false, Bool.false_eq_true,
        if_false, Nat.add_zero]
  | Event.probe :: es => by
      simp only [runProbes, runProbes_true es, List.countP_cons, isProbeEvent,
        if_true, List.replicate_succ]
      rfl

theorem runProbes_false_split : ∀ es : List Event,
    runProbes false es =
      List.replicate ((es.takeWhile (fun e => !isMarkerEvent e)).countP isProbeEvent) 503
        ++ List.replicate (es.countP isProbeEvent
            - (es.takeWhile (fun e => !isMarkerEvent e)).countP isProbeEvent) 200
  | [] => rfl
  | Event.chunk s :: es => by
      by_cases hm : hasReadyMarker s = true
      · simp only [runProbes, observeChunk, hm, if_true, runProbes_true es,
          List.takeWhile_cons, isMarkerEvent, Bool.not_true, Bool.false_eq_true,
          if_false, List.countP_nil, List.replicate_zero, List.nil_append,
          List.countP_cons, isProbeEvent, Nat.add_zero, Nat.sub_zero]
      · have hm2 : hasReadyMarker s = false := by
          cases h : hasReadyMarker s
          · rfl
          · exact absurd h hm
        simp only [runProbes, observeChunk, hm2, Bool.false_eq_true, if_false,
          runProbes_false_split es, List.takeWhile_cons, isMarkerEvent,
          Bool.not_false, if_true, List.countP_cons, isProbeEvent,
          Nat.add_zero]
  | Event.probe :: es => by
      simp only [runProbes, runProbes_false_split es, List.takeWhile_cons,
        isMarkerEvent, Bool.not_false, if_true, List.countP_cons, isProbeEvent,
        if_true, List.replicate_succ, Nat.succ_sub_succ]
      rfl

/-- C1: for every inbound probe request, the response status is 503 until
a backend stdout chunk containing one of the case-sensitive markers
"listening" / "started" / "bound" has been observed, and 200 for every
probe afterward: over any interleaving of stdout chunks and probes the
probe statuses are a block of 503s (the probes before the first marker
chunk) followed only by 200s, so the state flips at most once and once a
probe has returned 200 no later probe returns 503; moreover once the flag
is set no chunk sequence ever clears it. -/
theorem probe_statuses_monotonic :
    (∀ es : List Event,
       runProbes false es =
         List.replicate ((es.takeWhile (fun e => !isMarkerEvent e)).countP isProbeEvent) 503
           ++ List.replicate (es.countP isProbeEvent
               - (es.takeWhile (fun e => !isMarkerEvent e)).countP isProbeEvent) 200)
    ∧ (∀ chunks : List String, readyAfter true chunks = true) := by
  refine ⟨runProbes_false_split, ?_⟩
  intro chunks
  induction chunks with
  | nil => rfl
  | cons c rest ih =>
      show readyAfter (observeChunk true c) rest = true
      rw [observeChunk_true]
      exact ih

/-- A filesystem in which the settings file exists but does not parse,
while directory and write access are fine. -/
def unparseableEnv : BootstrapEnv :=
  { dirExists := true, mkdirOk := true, fileExists := true,
    readResult := ReadOutcome.parseError, writeOk := true }

/-- C2 counterexample: with an existing but unparseable settings file the
bootstrap does NOT fail fatally — it completes and destructively
overwrites the file with a fresh config (the inner catch only logs
"Could not parse existing config, will overwrite"), contradicting the
claim that the file is never destructively overwritten and that the
process exits. -/
theorem bootstrap_overwrites_unparseable :
    bootstrap unparseableEnv = BootstrapResult.ok freshConfig
    ∧ bootstrap unparseableEnv ≠ BootstrapResult.fatalExit := by decide

/-- C2 amended: if the settings file exists but is unreadable or
unparseable, the bootstrap continues and destructively overwrites it with
a fresh config holding only the trusted-proxies setting; fatal bootstrap
exit occurs exactly for the outer-try failures: the directory being
uncreatable or the file unwritable. -/
theorem bootstrap_failure_modes (env : BootstrapEnv) :
    (env.dirExists = false → env.mkdirOk = false →
       bootstrap env = BootstrapResult.fatalExit)
    ∧ ((env.dirExists = true ∨ env.mkdirOk = true) → env.writeOk = false →
       bootstrap env = BootstrapResult.fatalExit)
    ∧ ((env.dirExists = true ∨ env.mkdirOk = true) → env.writeOk = true →
       env.fileExists = true →
       (env.readResult = ReadOutcome.readError ∨
        env.readResult = ReadOutcome.parseError) →
       bootstrap env = BootstrapResult.ok freshConfig) := by
  refine ⟨?_, ?_, ?_⟩
  · intro h1 h2
    simp [bootstrap, h1, h2]
  · intro h1 h2
    rcases h1 with h1 | h1 <;> simp [bootstrap, h1, h2]
  · intro h1 h2 h3 h4
    rcases h1 with h1 | h1 <;> rcases h4 with h4 | h4 <;>
      simp [bootstrap, h1, h2, h3, h4, freshConfig]

/-- C2 witness for the amended theorem: concrete instantiations of both
fatal modes and of the overwrite mode. -/
theorem bootstrap_failure_modes_witness :
    bootstrap { dirExists := false, mkdirOk := false, fileExists := false,
                readResult := ReadOutcome.readError, writeOk := true }
      = BootstrapResult.fatalExit
    ∧ bootstrap { dirExists := true, mkdirOk := true, fileExists := false,
                  readResult := ReadOutcome.readError, writeOk := false }
      = BootstrapResult.fatalExit
    ∧ bootstrap { dirExists := true, mkdirOk := true, fileExists := true,
                  readResult := ReadOutcome.readError, writeOk := true }
      = BootstrapResult.ok freshConfig :=
  ⟨(bootstrap_failure_modes _).1 rfl rfl,
   (bootstrap_failure_modes _).2.1 (Or.inl rfl) rfl,
   (bootstrap_failure_modes _).2.2 (Or.inl rfl) rfl rfl (Or.inl rfl)⟩

/-- C3: every upgrade request arriving while `gatewayReady` is false is
answered with the bare 503 status line on the inbound socket, which is
then destroyed, and no connection to the gateway is attempted. -/
theorem tunnel_not_ready_503 (req : InboundRequest) (head : List Nat)
    (connectOk : Bool) :
    handleUpgrade false req head connectOk
      = [UpAct.inWrite "HTTP/1.1 503 Service Unavailable\r\n\r\n",
         UpAct.inDestroy]
    ∧ UpAct.connectAttempt ∉ handleUpgrade false req head connectOk := by
  refine ⟨rfl, ?_⟩
  intro hmem
  simp [handleUpgrade] at hmem

/-- C4 counterexample: the claim says only forwarding headers NOT already
present are appended and one the client set is never duplicated, but the
code tests JavaScript truthiness, so when the client sets
`X-Forwarded-For` with an empty value the header is present yet the
handler appends a second, computed `X-Forwarded-For` (both lines end up
in the reconstructed request), and the client address is taken from the
peer although a forwarding header is present. -/
theorem forwarding_header_duplicated :
    headerPresent emptyXffReq.headers "x-forwarded-for" = true
    ∧ (addedProxyHeaders emptyXffReq).map Prod.fst
        = ["X-Forwarded-For", "X-Forwarded-Proto", "X-Forwarded-Host",
           "X-Real-IP"]
    ∧ strContains (buildUpgradeRequest emptyXffReq)
        "x-forwarded-for: \r\n" = true
    ∧ strContains (buildUpgradeRequest emptyXffReq)
        "X-Forwarded-For: 203.0.113.5\r\n" = true
    ∧ clientIpOf emptyXffReq = "203.0.113.5" := by decide

/-- C4 amended: for every tunnel request in which each forwarding header,
if bound at all, is bound to a JavaScript-truthy (non-empty) value,
exactly those of the four forwarding headers that are not already present
are appended, in source order, with the computed values (client address,
scheme from whether the URL starts with "wss://", host, real client IP);
a forwarding header the client already set is never appended again; and
the client address is the trimmed first comma-separated entry of an
existing forwarding header when that entry is non-empty, else the
immediate peer address, else "unknown". -/
theorem forwarding_header_augmentation (req : InboundRequest)
    (hT : ∀ k ∈ forwardingKeys,
      headerPresent req.headers k = headerTruthy req.headers k) :
    addedProxyHeaders req
      = (computedForwarding req).filterMap
          (fun kv => if headerPresent req.headers kv.1 then none
                     else some kv.2)
    ∧ (headerPresent req.headers "x-forwarded-for" = false →
        clientIpOf req = jsOr (req.remoteAddress.getD "") "unknown")
    ∧ (∀ v, lookupHeader req.headers "x-forwarded-for" = some v →
        trimJS (firstCommaPart (hvToStringJS v)) ≠ "" →
        clientIpOf req = trimJS (firstCommaPart (hvToStringJS v))) := by
  have h1 := hT "x-forwarded-for" (by simp [forwardingKeys])
  have h2 := hT "x-forwarded-proto" (by simp [forwardingKeys])
  have h3 := hT "x-forwarded-host" (by simp [forwardingKeys])
  have h4 := hT "x-real-ip" (by simp [forwardingKeys])
  refine ⟨?_, ?_, ?_⟩
  · simp only [addedProxyHeaders, computedForwarding, List.filterMap, h1, h2, h3, h4]
    cases headerTruthy req.headers "x-forwarded-for" <;>
      cases headerTruthy req.headers "x-forwarded-proto" <;>
        cases headerTruthy req.headers "x-forwarded-host" <;>
          cases headerTruthy req.headers "x-real-ip" <;> simp
  · intro hno
    have : lookupHeader req.headers "x-forwarded-for" = none := by
      unfold headerPresent at hno
      exact Option.not_isSome_iff_eq_none.mp (by simp [hno])
    simp [clientIpOf, this, jsOr]
  · intro v hv hne
    simp [clientIpOf, hv, jsOr, hne]

/-- C4 witness: a request already carrying a non-empty `X-Forwarded-For`
keeps it (only the other three headers are appended) and the client
address is its first comma-separated entry. -/
theorem forwarding_header_augmentation_witness :
    addedProxyHeaders
        { method := "GET", url := "/ws", httpVersion := "1.1",
          headers := [("x-forwarded-for", HeaderValue.str "1.2.3.4, 5.6.7.8")],
          isUpgrade := true, remoteAddress := some "10.0.0.9" }
      = (computedForwarding
          { method := "GET", url := "/ws", httpVersion := "1.1",
            headers := [("x-forwarded-for", HeaderValue.str "1.2.3.4, 5.6.7.8")],
            isUpgrade := true, remoteAddress := some "10.0.0.9" }).filterMap
          (fun kv => if headerPresent
              [("x-forwarded-for", HeaderValue.str "1.2.3.4, 5.6.7.8")] kv.1
            then none else some kv.2)
    ∧ clientIpOf
        { method := "GET", url := "/ws", httpVersion := "1.1",
          headers := [("x-forwarded-for", HeaderValue.str "1.2.3.4, 5.6.7.8")],
          isUpgrade := true, remoteAddress := some "10.0.0.9" }
      = "1.2.3.4" :=
  ⟨(forwarding_header_augmentation _ (by decide)).1,
   (forwarding_header_augmentation _ (by decide)).2.2
     (HeaderValue.str "1.2.3.4, 5.6.7.8") rfl (by decide)⟩

/-- C5 counterexample: on a tunnel request with no forwarding headers the
bytes written to the gateway are not the claimed concatenation (request
line, inbound headers, handshake fixups, blank line): the four computed
forwarding headers sit in between, so the claimed byte sequence differs
from what the code writes. -/
theorem upgrade_bytes_not_as_claimed :
    buildUpgradeRequest plainUpgradeReq ≠ claimedTunnelBytes plainUpgradeReq := by
  decide

/-- The forwarding-header lines the upgrade handler appends, as whole
lines, one per `if (!req.headers[...])` branch of lines 232-243. -/
def addedProxyLines (req : InboundRequest) : List String :=
  (if !(headerTruthy req.headers "x-forwarded-for") then
      ["X-Forwarded-For: " ++ clientIpOf req ++ "\r\n"] else [])
  ++ (if !(headerTruthy req.headers "x-forwarded-proto") then
      ["X-Forwarded-Proto: " ++ forwardedProtoOf req ++ "\r\n"] else [])
  ++ (if !(headerTruthy req.headers "x-forwarded-host") then
      ["X-Forwarded-Host: " ++ hostOrUnknown req.headers ++ "\r\n"] else [])
  ++ (if !(headerTruthy req.headers "x-real-ip") then
      ["X-Real-IP: " ++ clientIpOf req ++ "\r\n"] else [])

/-- C5 amended: for every tunnel request the byte sequence written to the
gateway before splicing equals: the original request line, then every
inbound header in its original order with list values joined by a
comma-space separator, then the forwarding headers that the handler
appends (those of the four not already truthy-present, each serialized as
name, colon-space, value, CRLF), then a connection-upgrade indicator
(added exactly when the connection header does not case-insensitively
contain "upgrade") and an upgrade-protocol-name indicator (added exactly
when no upgrade header is truthy-present), terminated by the blank line. -/
theorem upgrade_request_byte_layout (req : InboundRequest) :
    buildUpgradeRequest req =
      requestLineOf req
      ++ concatStrings (req.headers.map headerLineOf)
      ++ concatStrings (addedProxyLines req)
      ++ (if connectionHasUpgrade req.headers then ""
          else "Connection: Upgrade\r\n")
      ++ (if headerTruthy req.headers "upgrade" then ""
          else "Upgrade: websocket\r\n")
      ++ "\r\n"
    ∧ addedProxyLines req
      = (addedProxyHeaders req).map (fun kv => kv.1 ++ ": " ++ kv.2 ++ "\r\n") := by
  constructor
  · simp only [buildUpgradeRequest, addedProxyLines]
    rw [show (req.headers.foldl (fun acc kv => acc ++ headerLineOf kv)
          (requestLineOf req))
        = requestLineOf req ++ concatStrings (req.headers.map headerLineOf)
      from foldl_append_concat headerLineOf req.headers (requestLineOf req)]
    cases headerTruthy req.headers "x-forwarded-for" <;>
      cases headerTruthy req.headers "x-forwarded-proto" <;>
        cases headerTruthy req.headers "x-forwarded-host" <;>
          cases headerTruthy req.headers "x-real-ip" <;>
            cases connectionHasUpgrade req.headers <;>
              cases headerTruthy req.headers "upgrade" <;>
                simp [concatStrings, String.append_assoc, String.append_empty,
                  String.empty_append, -String.reduceAppend]
  · simp only [addedProxyLines, addedProxyHeaders]
    cases headerTruthy req.headers "x-forwarded-for" <;>
      cases headerTruthy req.headers "x-forwarded-proto" <;>
        cases headerTruthy req.headers "x-forwarded-host" <;>
          cases headerTruthy req.headers "x-real-ip" <;> simp

/-- An ordinary unary request, `GET /foo` with header `X-Test: 1`. -/
def fooReq : InboundRequest :=
  { method := "GET", url := "/foo", httpVersion := "1.1",
    headers := [("x-test", HeaderValue.str "1")],
    isUpgrade := false, remoteAddress := some "203.0.113.5" }

/-- C6: on a tunnel with a non-empty head buffer and a reachable gateway,
the handler's action trace is exactly: connect, write the reconstructed
header block, write the head-buffer bytes (once, unaltered), start
splicing — so the head bytes go out exactly once, in order, after the
headers and before splicing. -/
theorem head_buffer_replayed (req : InboundRequest) (head : List Nat)
    (h : head ≠ []) :
    handleUpgrade true req head true
      = [UpAct.connectAttempt, UpAct.gwWrite (buildUpgradeRequest req),
         UpAct.gwWriteBytes head, UpAct.splice] := by
  have hlen : 0 < head.length := List.length_pos.mpr h
  simp [handleUpgrade, hlen]

/-- C6 witness. -/
theorem head_buffer_replayed_witness :
    handleUpgrade true plainUpgradeReq [129, 4] true
      = [UpAct.connectAttempt,
         UpAct.gwWrite (buildUpgradeRequest plainUpgradeReq),
         UpAct.gwWriteBytes [129, 4], UpAct.splice] :=
  head_buffer_replayed plainUpgradeReq [129, 4] (by decide)

/-- C7: a unary (non-probe) request forwarded to a reachable gateway that
echoes it comes back to the caller with its body and headers unmodified:
the proxy sends the same method, path and headers, makes exactly one
connection attempt (no retry), and streams back the echoed status,
headers and body. -/
theorem unary_round_trip (ready : Bool) (now : String) (req : InboundRequest)
    (body : String) (h : req.url ≠ "/health") :
    handleHttp ready now req body (some echoBackend)
      = { response := { status := 200, headers := req.headers, body := body },
          sent := some { method := req.method, path := req.url,
                         headers := req.headers, body := body },
          attempts := 1 } := by
  simp [handleHttp, h, echoBackend]

/-- C7 witness. -/
theorem unary_round_trip_witness :
    handleHttp false "t" fooReq "B" (some echoBackend)
      = { response := { status := 200,
                        headers := [("x-test", HeaderValue.str "1")],
                        body := "B" },
          sent := some { method := "GET", path := "/foo",
                         headers := [("x-test", HeaderValue.str "1")],
                         body := "B" },
          attempts := 1 } :=
  unary_round_trip false "t" fooReq "B" (by decide)

/-- C8: when the gateway connection fails before a response, the inbound
request fails with 502 and is not retried: the unary path answers 502
with the plain-text body after exactly one connection attempt, and the
tunnel path writes the bare 502 status line on the inbound socket and
destroys it, also after exactly one connection attempt. -/
theorem backend_failure_502 :
    (∀ (ready : Bool) (now : String) (req : InboundRequest) (body : String),
       req.url ≠ "/health" →
       handleHttp ready now req body none
         = { response := { status := 502,
                           headers := [("Content-Type", HeaderValue.str "text/plain")],
                           body := "Bad Gateway - Gateway unavailable" },
             sent := some { method := req.method, path := req.url,
                            headers := req.headers, body := body },
             attempts := 1 })
    ∧ (∀ (req : InboundRequest) (head : List Nat),
       handleUpgrade true req head false
         = [UpAct.connectAttempt,
            UpAct.inWrite "HTTP/1.1 502 Bad Gateway\r\n\r\n",
            UpAct.inDestroy]
       ∧ (handleUpgrade true req head false).countP
           (fun a => a == UpAct.connectAttempt) = 1) := by
  constructor
  · intro ready now req body h
    simp [handleHttp, h]
  · intro req head
    constructor
    · rfl
    · rfl

/-- C8 witness. -/
theorem backend_failure_502_witness :
    handleHttp true "t" fooReq "" none
      = { response := { status := 502,
                        headers := [("Content-Type", HeaderValue.str "text/plain")],
                        body := "Bad Gateway - Gateway unavailable" },
          sent := some { method := "GET", path := "/foo",
                         headers := [("x-test", HeaderValue.str "1")],
                         body := "" },
          attempts := 1 } :=
  backend_failure_502.1 true "t" fooReq "" (by decide)

/-- C9: a request whose URL is exactly the probe path is answered locally
with Content-Type application/json and status/body 200 `\x7b"status":"ok",
"timestamp":...\x7d` when ready, 503 `\x7b"status":"starting","timestamp":...\x7d`
otherwise, whatever the backend is (even unreachable); the gateway is
never contacted (zero connection attempts, nothing sent) and there is no
other side effect. -/
theorem health_probe_response (ready : Bool) (now : String)
    (req : InboundRequest) (body : String)
    (backend : Option (BackendRequest → BackendResponse))
    (h : req.url = "/health") :
    handleHttp ready now req body backend
      = { response := { status := if ready then 200 else 503,
                        headers := [("Content-Type", HeaderValue.str "application/json")],
                        body := healthBody (if ready then "ok" else "starting") now },
          sent := none, attempts := 0 } := by
  cases ready <;> simp [handleHttp, h]

/-- C9 witness: a not-yet-ready probe with an unreachable backend gets
the JSON 503 starting response. -/
theorem health_probe_response_witness :
    handleHttp false "2026-01-01T00:00:00.000Z" probeReq "" none
      = { response := { status := 503,
                        headers := [("Content-Type", HeaderValue.str "application/json")],
                        body := "\x7b\"status\":\"starting\",\"timestamp\":\"2026-01-01T00:00:00.000Z\"\x7d" },
          sent := none, attempts := 0 } :=
  health_probe_response false "2026-01-01T00:00:00.000Z" probeReq "" none rfl

/-- C10: probe treatment applies only to non-upgrade requests whose URL
is exactly "/health", for any method (routing never looks at the method);
any other URL — query string, trailing slash, suffix — is proxied; an
upgrade request, even to "/health", goes to the tunnel path, which is
readiness-gated and never the JSON health responder. -/
theorem health_path_exact_match :
    (∀ req : InboundRequest, req.isUpgrade = false →
       (dispatch req = Route.health ↔ req.url = "/health"))
    ∧ (∀ req : InboundRequest, req.isUpgrade = false → req.url ≠ "/health" →
       dispatch req = Route.unary)
    ∧ (∀ req : InboundRequest, req.isUpgrade = true →
       dispatch req = Route.tunnel)
    ∧ (∀ (req : InboundRequest) (m : String),
       dispatch { req with method := m } = dispatch req)
    ∧ (∀ (req : InboundRequest) (head : List Nat) (connectOk : Bool),
       req.isUpgrade = true → req.url = "/health" →
       handleUpgrade false req head connectOk
         = [UpAct.inWrite "HTTP/1.1 503 Service Unavailable\r\n\r\n",
            UpAct.inDestroy]) := by
  refine ⟨?_, ?_, ?_, ?_, ?_⟩
  · intro req h
    simp [dispatch, h]
  · intro req h hu
    simp [dispatch, h, hu]
  · intro req h
    simp [dispatch, h]
  · intro req m
    simp [dispatch]
  · intro req head connectOk _ _
    rfl

/-- C10 witness: "/health" with a query string is proxied, exact
"/health" is answered locally, an upgrade to "/health" is tunnelled. -/
theorem health_path_exact_match_witness :
    dispatch { method := "GET", url := "/health?x=1", httpVersion := "1.1",
               headers := [], isUpgrade := false, remoteAddress := none }
      = Route.unary
    ∧ dispatch probeReq = Route.health
    ∧ dispatch { probeReq with isUpgrade := true } = Route.tunnel :=
  ⟨health_path_exact_match.2.1 _ rfl (by decide),
   (health_path_exact_match.1 probeReq rfl).mpr rfl,
   health_path_exact_match.2.2.1 _ rfl⟩

end RenderHealthWrapper
